import Mathlib

/-!
Verification of fairseq2 components: the configuration-structuring pass
(`fairseq2/utils/config.py`), the tokenizer family handler and its
registration (`fairseq2/data/tokenizers/handler.py`), the generic speech
dataset stub (`fairseq2/datasets/speech.py`), the configuration dataclasses
(`fairseq2/datasets/config.py`, `fairseq2/utils/log.py`), the module size
accounting (`fairseq2/utils/log.py`) and layer-drop iteration
(`fairseq2/nn/module_list.py`).

Python objects are embedded shallowly: a configuration object is a tree
whose nodes are either non-dataclass atoms or dataclass instances carrying
a class identifier and a field list; Python exceptions become explicit
error values in `Except`; mutation of a config by a section handler is
observed through the trace of handler applications.
-/

namespace Fairseq2

/-- A Python configuration object as seen by `StandardConfigProcessor.process`:
either a non-dataclass object (identified by a number) or a dataclass
instance with the identifier of its exact class and its fields in
declaration order. -/
inductive ConfigVal where
  | atom : Nat → ConfigVal
  | dc : Nat → List (String × ConfigVal) → ConfigVal
deriving Repr

/-- Python exceptions relevant to `StandardConfigProcessor.process`:
`StructureError` (with message and optional `__cause__` from `raise ... from`)
and any other exception. -/
inductive PyError where
  | structureError : String → Option PyError → PyError
  | otherError : String → PyError
deriving Repr

/-- A `ConfigSectionHandler`: processes a section in place; the in-place
mutation is not observable here, only success or a raised exception. -/
abbrev SectionHandler := ConfigVal → Except PyError Unit

/-- The `Provider[ConfigSectionHandler]` held by `StandardConfigProcessor`:
`get` on a class identifier either raises `LookupError` (modelled as `none`)
or returns the registered handler. -/
abbrev HandlerMap := Nat → Option SectionHandler

/-- An observable event of the walk: the handler registered for class `k`
was applied to the given config object. -/
inductive Event where
  | handled : Nat → ConfigVal → Event
deriving Repr

/-- The `try/except LookupError/else` block of
`StandardConfigProcessor.process`: look the handler up by the exact class
identifier; on `LookupError` do nothing, otherwise apply it. -/
def applyHandler (H : HandlerMap) (kid : Nat) (c : ConfigVal) :
    Except PyError (List Event) :=
  match H kid with
  | none => Except.ok []
  | some h =>
    match h c with
    | Except.ok _ => Except.ok [Event.handled kid c]
    | Except.error e => Except.error e

/-- The `except StructureError` clause in the field loop of
`StandardConfigProcessor.process`: a `StructureError` raised while
processing field `name` is replaced by a new `StructureError` naming the
field, chained from the original; any other exception propagates as is. -/
def wrapFieldError (name : String) (e : PyError) : PyError :=
  match e with
  | PyError.structureError m c =>
      PyError.structureError
        ("`" ++ name ++ "` cannot be structured. See the nested exception for details.")
        (some (PyError.structureError m c))
  | PyError.otherError m => PyError.otherError m

mutual

/-- `StandardConfigProcessor.process`: return immediately on a
non-dataclass; otherwise apply the section handler registered for the
exact dataclass type (if any), then process every field value in
declaration order. The result is the trace of handler applications. -/
def process (H : HandlerMap) : ConfigVal → Except PyError (List Event)
  | ConfigVal.atom _ => Except.ok []
  | ConfigVal.dc kid fs =>
    match applyHandler H kid (ConfigVal.dc kid fs) with
    | Except.error e => Except.error e
    | Except.ok ev0 =>
      match processFields H fs with
      | Except.error e => Except.error e
      | Except.ok evs => Except.ok (ev0 ++ evs)

/-- The `for field in fields(config_kls)` loop of
`StandardConfigProcessor.process`, with its `except StructureError`
wrapping per field. -/
def processFields (H : HandlerMap) :
    List (String × ConfigVal) → Except PyError (List Event)
  | [] => Except.ok []
  | (name, v) :: rest =>
    match process H v with
    | Except.error e => Except.error (wrapFieldError name e)
    | Except.ok evs =>
      match processFields H rest with
      | Except.error e => Except.error e
      | Except.ok more => Except.ok (evs ++ more)

end

mutual

/-- Nesting depth of a configuration object: the number of Python stack
frames `StandardConfigProcessor.process` needs for it. -/
def depth : ConfigVal → Nat
  | ConfigVal.atom _ => 1
  | ConfigVal.dc _ fs => 1 + fieldsDepth fs

/-- Maximum nesting depth over the field values of a dataclass. -/
def fieldsDepth : List (String × ConfigVal) → Nat
  | [] => 0
  | (_, v) :: rest => max (depth v) (fieldsDepth rest)

end

mutual

/-- `StandardConfigProcessor.process` run with an explicit bound on the
recursion depth: `none` means the bound was exhausted before the walk
returned. -/
def processFuel (H : HandlerMap) : Nat → ConfigVal → Option (Except PyError (List Event))
  | 0, _ => none
  | Nat.succ _, ConfigVal.atom _ => some (Except.ok [])
  | Nat.succ fuel, ConfigVal.dc kid fs =>
    match applyHandler H kid (ConfigVal.dc kid fs) with
    | Except.error e => some (Except.error e)
    | Except.ok ev0 =>
      match processFieldsFuel H fuel fs with
      | none => none
      | some (Except.error e) => some (Except.error e)
      | some (Except.ok evs) => some (Except.ok (ev0 ++ evs))

/-- The field loop of `process`, depth-bounded. -/
def processFieldsFuel (H : HandlerMap) :
    Nat → List (String × ConfigVal) → Option (Except PyError (List Event))
  | _, [] => some (Except.ok [])
  | fuel, (name, v) :: rest =>
    match processFuel H fuel v with
    | none => none
    | some (Except.error e) => some (Except.error (wrapFieldError name e))
    | some (Except.ok evs) =>
      match processFieldsFuel H fuel rest with
      | none => none
      | some (Except.error e) => some (Except.error e)
      | some (Except.ok more) => some (Except.ok (evs ++ more))

end

/-! ## Tokenizer family handler (`fairseq2/data/tokenizers/handler.py`) -/

/-- A URI, as returned by `card.field("tokenizer").as_uri()`: its scheme and
the rest of its text. -/
structure Uri where
  scheme : String
  rest : String
deriving Repr, DecidableEq

/-- An `AssetCard` as used by `load_tokenizer`: its name and the URI held in
its `tokenizer` field. -/
structure AssetCard where
  name : String
  tokenizer_uri : Uri
deriving Repr, DecidableEq

/-- A Python object as passed around for tokenizer configurations: the
identifier of its exact class and an opaque payload. `isinstance` is
modelled as equality of class identifiers. -/
structure Obj where
  kls : Nat
  payload : Nat
deriving Repr, DecidableEq

/-- A Python class usable as a tokenizer configuration class: its identifier
and the result of calling it with no arguments (`none` when that raises
`TypeError`). -/
structure PyClass where
  id : Nat
  mkDefault : Option Obj
deriving Repr, DecidableEq

/-- Outcome of calling a `TokenizerLoader` on a path and a configuration:
either a tokenizer (identified by a number) or one of the exceptions
`load_tokenizer` catches. `FileNotFoundError` is listed apart from the
other `OSError`s because the Python `except` clauses distinguish it. -/
inductive LoaderResult where
  | ok : Nat → LoaderResult
  | valueError : String → LoaderResult
  | tokenizerModelError : String → String → LoaderResult
  | fileNotFoundError : String → LoaderResult
  | osError : String → LoaderResult
deriving Repr, DecidableEq

/-- A `TokenizerLoader`: path and configuration to loader outcome. -/
abbrev Loader := String → Obj → LoaderResult

/-- The `AssetDownloadManager` interface used by `load_tokenizer`:
`supported_schemes` and `download_tokenizer` (URI, card name, progress flag
to local path). -/
structure AssetDownloadManager where
  supported_schemes : List String
  download_tokenizer : Uri → String → Bool → String

/-- The `AssetConfigLoader` interface used by `get_tokenizer_config`:
overlays the card's `tokenizer_config` field onto a default configuration. -/
structure AssetConfigLoader where
  load : AssetCard → Obj → Obj

/-- Exceptions raised by `StandardTokenizerFamilyHandler` methods.
`assetCardError` carries the card name it was constructed with and its
message; `raise_operational_system_error` is modelled by
`operationalSystemError`. -/
inductive TErr where
  | assetCardError : String → String → TErr
  | typeError : String → TErr
  | valueError : String → TErr
  | operationalSystemError : String → TErr
  | internalError : String → TErr
deriving Repr, DecidableEq

/-- `StandardTokenizerFamilyHandler`: the state set up by `__init__`. -/
structure StandardTokenizerFamilyHandler where
  _family : String
  _config_kls : PyClass
  _loader : Loader
  _file_system : Nat
  _asset_download_manager : AssetDownloadManager
  _asset_config_loader : AssetConfigLoader

/-- The `family` property of `StandardTokenizerFamilyHandler`. -/
def StandardTokenizerFamilyHandler.family
    (h : StandardTokenizerFamilyHandler) : String :=
  h._family

/-- The `config_kls` property of `StandardTokenizerFamilyHandler`. -/
def StandardTokenizerFamilyHandler.config_kls
    (h : StandardTokenizerFamilyHandler) : PyClass :=
  h._config_kls

/-- `StandardTokenizerFamilyHandler.get_tokenizer_config`: construct the
default configuration (raising `InternalError` when the class cannot be
constructed with no arguments) and overlay the card's `tokenizer_config`
field on it. -/
def StandardTokenizerFamilyHandler.get_tokenizer_config
    (h : StandardTokenizerFamilyHandler) (card : AssetCard) : Except TErr Obj :=
  match h._config_kls.mkDefault with
  | none =>
      Except.error (TErr.internalError
        ("Default configuration of the " ++ h._family ++
          " tokenizer family cannot be constructed."))
  | some d => Except.ok (h._asset_config_loader.load card d)

/-- The configuration-resolution block of `load_tokenizer` (lines 116-127):
when the caller passed no configuration, read it from the card and record
`has_custom_config = False`; otherwise check `isinstance(config, config_kls)`
(raising `TypeError` on failure) and record `has_custom_config = True`. -/
def StandardTokenizerFamilyHandler.resolve_config
    (h : StandardTokenizerFamilyHandler) (card : AssetCard)
    (config : Option Obj) : Except TErr (Obj × Bool) :=
  match config with
  | none =>
    match h.get_tokenizer_config card with
    | Except.error e => Except.error e
    | Except.ok c => Except.ok (c, false)
  | some c =>
    if c.kls = h._config_kls.id then Except.ok (c, true)
    else
      Except.error (TErr.typeError
        "`config` must be of type `config_kls`, but is of another type instead.")

/-- The `try: return self._loader(path, config)` block of `load_tokenizer`
with its four `except` clauses, in source order. -/
def StandardTokenizerFamilyHandler.call_loader
    (h : StandardTokenizerFamilyHandler) (name : String) (uri : Uri)
    (path : String) (cfg : Obj) (has_custom_config : Bool) : Except TErr Nat :=
  match h._loader path cfg with
  | LoaderResult.ok tok => Except.ok tok
  | LoaderResult.valueError m =>
    if has_custom_config then Except.error (TErr.valueError m)
    else
      Except.error (TErr.assetCardError name
        ("tokenizer_config field of the " ++ name ++
          " asset card is not a valid " ++ h._family ++
          " tokenizer configuration."))
  | LoaderResult.tokenizerModelError _ _ =>
      Except.error (TErr.assetCardError name
        ("Tokenizer model of the " ++ name ++ " asset card cannot be loaded."))
  | LoaderResult.fileNotFoundError m =>
    if uri.scheme ≠ "file" then Except.error (TErr.operationalSystemError m)
    else
      Except.error (TErr.assetCardError name
        (path ++ " pointed to by the tokenizer field of the " ++ name ++
          " asset card is not found."))
  | LoaderResult.osError m => Except.error (TErr.operationalSystemError m)

/-- `StandardTokenizerFamilyHandler.load_tokenizer`: check the URI scheme
against the download manager's supported schemes, download, resolve the
configuration, then call the loader translating its exceptions. -/
def StandardTokenizerFamilyHandler.load_tokenizer
    (h : StandardTokenizerFamilyHandler) (card : AssetCard)
    (config : Option Obj) (progress : Bool) : Except TErr Nat :=
  let name := card.name
  let uri := card.tokenizer_uri
  if uri.scheme ∈ h._asset_download_manager.supported_schemes then
    let path := h._asset_download_manager.download_tokenizer uri name progress
    match h.resolve_config card config with
    | Except.error e => Except.error e
    | Except.ok (cfg, has_custom_config) =>
        h.call_loader name uri path cfg has_custom_config
  else
    Except.error (TErr.assetCardError name
      ("tokenizer URI scheme of the " ++ name ++
        " asset card is expected to be a supported scheme, but is " ++
        uri.scheme ++ " instead."))

/-! ## Tokenizer family registration (`register_tokenizer_family`) -/

/-- An `AdvancedTokenizerLoader`: also receives the dependency resolver. -/
abbrev AdvLoader := Nat → String → Obj → LoaderResult

/-- Modelled from the spec: the `DependencyResolver` of
`fairseq2.runtime.dependency` (not under `src/`), restricted to the three
services `create_handler` resolves. The resolver is identified by a number
so that an advanced loader can observe which resolver it was given. -/
structure Resolver where
  id : Nat
  file_system : Nat
  asset_download_manager : AssetDownloadManager
  asset_config_loader : AssetConfigLoader

/-- A registration held by the dependency container: the key it was
registered under and the factory run at resolution time. -/
structure Registration where
  key : String
  factory : Resolver → Except TErr StandardTokenizerFamilyHandler

/-- Modelled from the spec: the `DependencyContainer` of
`fairseq2.runtime.dependency` (not under `src/`), restricted to
`TokenizerFamilyHandler` registrations — "a registry that lets ...
tokenizer families ... be registered and resolved by name". -/
abbrev DependencyContainer := List Registration

/-- Modelled from the spec: `container.register(T, factory, key=...)`. -/
def DependencyContainer.register (c : DependencyContainer)
    (factory : Resolver → Except TErr StandardTokenizerFamilyHandler)
    (key : String) : DependencyContainer :=
  Registration.mk key factory :: c

/-- Modelled from the spec: resolving `TokenizerFamilyHandler` by key runs
the factory most recently registered under that key. -/
def DependencyContainer.resolve (c : DependencyContainer) (key : String)
    (r : Resolver) : Option (Except TErr StandardTokenizerFamilyHandler) :=
  match c.find? (fun reg => reg.key == key) with
  | none => none
  | some reg => some (reg.factory r)

/-- The `create_handler` closure of `register_tokenizer_family`: reject the
cases where both or neither of `loader`/`advanced_loader` were given, wrap
an advanced loader over the resolver, resolve the three services, and build
the `StandardTokenizerFamilyHandler`. -/
def create_handler (family : String) (config_kls : PyClass)
    (loader : Option Loader) (advanced_loader : Option AdvLoader)
    (resolver : Resolver) : Except TErr StandardTokenizerFamilyHandler :=
  match advanced_loader with
  | some adv =>
    match loader with
    | some _ =>
        Except.error (TErr.valueError
          "`loader` and `advanced_loader` must not be specified at the same time.")
    | none =>
        Except.ok (StandardTokenizerFamilyHandler.mk family config_kls
          (fun path config => adv resolver.id path config)
          resolver.file_system resolver.asset_download_manager
          resolver.asset_config_loader)
  | none =>
    match loader with
    | none =>
        Except.error (TErr.valueError
          "`loader` or `advanced_loader` must be specified.")
    | some l =>
        Except.ok (StandardTokenizerFamilyHandler.mk family config_kls l
          resolver.file_system resolver.asset_download_manager
          resolver.asset_config_loader)

/-- `register_tokenizer_family`: register `create_handler` under the family
name. -/
def register_tokenizer_family (container : DependencyContainer)
    (family : String) (config_kls : PyClass) (loader : Option Loader)
    (advanced_loader : Option AdvLoader) : DependencyContainer :=
  container.register (create_handler family config_kls loader advanced_loader)
    family

/-! ## Configuration dataclasses (`fairseq2/datasets/config.py`,
`fairseq2/utils/log.py`) -/

/-- The `DataReadOptions` dataclass with its field defaults. Python `int`
fields are `Int`; `sync_mode` is one of the literals `"until_first"` and
`"until_last"`; `extras` is an association list standing for the
`MutableMapping` built by `default_factory=dict`. -/
structure DataReadOptions where
  example_shuffle_window : Int := 1
  batch_shuffle_window : Int := 1
  drop_remainder : Bool := false
  sync_batches : Bool := true
  sync_mode : String := "until_first"
  max_num_batches : Option Int := none
  num_accumulate : Int := 1
  num_prefetch : Int := 1
  seed : Int := 2
  extras : List (String × Nat) := []
deriving Repr, DecidableEq

/-- The `SpeechReadOptions` dataclass (`fairseq2/datasets/speech.py`):
`DataReadOptions` plus a dtype (a torch dtype, named by a string) and an
audio-normalisation flag. -/
structure SpeechReadOptions extends DataReadOptions where
  dtype : String := "torch.float32"
  normalize_audio : Bool := false
deriving Repr, DecidableEq

/-- The `ModuleSizeInfo` dataclass with every field defaulting to `0`.
Python `int` fields are `Int`, so non-negativity of the accounted sizes is
a statement, not a typing artefact. -/
structure ModuleSizeInfo where
  param_size : Int := 0
  param_size_bytes : Int := 0
  trainable_param_size : Int := 0
  trainable_param_size_bytes : Int := 0
  buffer_size : Int := 0
  buffer_size_bytes : Int := 0
  total_size : Int := 0
  total_size_bytes : Int := 0
deriving Repr, DecidableEq

/-! ## Generic speech dataset stub (`fairseq2/datasets/speech.py`) -/

/-- The `Batching` type alias: `StaticBatching` or `LengthBatching`. -/
inductive Batching where
  | staticBatching : Int → Batching
  | lengthBatching : Int → Batching
deriving Repr, DecidableEq

/-- `NotSupportedError` with its message. -/
structure NotSupportedError where
  message : String
deriving Repr, DecidableEq

/-- `GenericSpeechDataset`: a dataclass-free stub with no state. -/
structure GenericSpeechDataset where
deriving Repr, DecidableEq

/-- `GenericSpeechDataset.from_path`: ignores the path and optional name. -/
def GenericSpeechDataset.from_path (path : String) (name : Option String) :
    GenericSpeechDataset :=
  GenericSpeechDataset.mk

/-- `GenericSpeechDataset.create_reader`: raises `NotSupportedError` for
every combination of arguments; a would-be reader is identified by a
number. -/
def GenericSpeechDataset.create_reader (d : GenericSpeechDataset)
    (split : String) (gang : Nat) (min_audio_len max_audio_len : Int)
    (batching : Batching) (options : Option SpeechReadOptions) :
    Except NotSupportedError Nat :=
  Except.error (NotSupportedError.mk "not supported yet.")

/-- `GenericSpeechDataset.splits`: returns `set()`. -/
def GenericSpeechDataset.splits (d : GenericSpeechDataset) : Finset String :=
  ∅

/-! ## Module size accounting (`fairseq2/utils/log.py`) -/

/-- A torch tensor as seen by `get_module_size_info`: its element count
(`numel`, with the `DTensor` local count folded into the same field), its
element size in bytes, and its `requires_grad` flag. -/
structure TorchTensor where
  numel : Nat
  element_size : Nat
  requires_grad : Bool
deriving Repr, DecidableEq

/-- A torch module as seen by `get_module_size_info`: the sequences yielded
by `module.parameters()` and `module.buffers()`, either of which may yield
`None` entries. -/
structure TorchModule where
  parameters : List (Option TorchTensor)
  buffers : List (Option TorchTensor)
deriving Repr, DecidableEq

/-- The inner `get_numel` of `get_module_size_info`; the `DTensor` branch is
modelled by `numel` already holding the local element count. -/
def get_numel (t : TorchTensor) : Nat :=
  t.numel

/-- One iteration of the `for param in module.parameters()` loop. -/
def add_param (info : ModuleSizeInfo) (p : Option TorchTensor) :
    ModuleSizeInfo :=
  match p with
  | none => info
  | some t =>
    let numel := get_numel t
    let size_bytes := numel * t.element_size
    let info :=
      { info with
          param_size := info.param_size + numel
          param_size_bytes := info.param_size_bytes + size_bytes }
    let info :=
      if t.requires_grad then
        { info with
            trainable_param_size := info.trainable_param_size + numel
            trainable_param_size_bytes :=
              info.trainable_param_size_bytes + size_bytes }
      else info
    { info with
        total_size := info.total_size + numel
        total_size_bytes := info.total_size_bytes + size_bytes }

/-- One iteration of the `for buffer in module.buffers()` loop. -/
def add_buffer (info : ModuleSizeInfo) (b : Option TorchTensor) :
    ModuleSizeInfo :=
  match b with
  | none => info
  | some t =>
    let numel := t.numel
    let size_bytes := numel * t.element_size
    let info :=
      { info with
          buffer_size := info.buffer_size + numel
          buffer_size_bytes := info.buffer_size_bytes + size_bytes }
    { info with
        total_size := info.total_size + numel
        total_size_bytes := info.total_size_bytes + size_bytes }

/-- `get_module_size_info`: start from `ModuleSizeInfo()` and accumulate
over parameters, then buffers. -/
def get_module_size_info (m : TorchModule) : ModuleSizeInfo :=
  let info : ModuleSizeInfo := {}
  let info := m.parameters.foldl add_param info
  m.buffers.foldl add_buffer info

/-! ## Layer-drop module list (`fairseq2/nn/module_list.py`) -/

/-- `fairseq2.nn.ModuleList`: the underlying module list (modules identified
by numbers), the drop probability and the `training` flag inherited from
`torch.nn.Module`. `drop_p` is a rational: the claims about it only compare
against `0.0`, which floats decide exactly. -/
structure ModuleList where
  modules : List Nat
  drop_p : Rat
  training : Bool

/-- `ModuleList.__iter__` as the list of modules yielded for one pass, given
the random draw `rand idx` standing for `prob_dist[idx]`: when
`drop_p > 0.0 and self.training`, module `idx` is yielded only if
`rand idx > drop_p`; otherwise `prob_dist is None` and every module is
yielded. -/
def ModuleList.iter (ml : ModuleList) (rand : Nat → Rat) : List Nat :=
  if 0 < ml.drop_p ∧ ml.training = true then
    (ml.modules.enum.filter (fun p => ml.drop_p < rand p.1)).map Prod.snd
  else
    ml.modules

/-! ## Theorems -/

/-- Claim C6: `GenericSpeechDataset` is a stub: `create_reader` raises
`NotSupportedError` for every combination of arguments, `splits()` returns
the empty set, and `from_path` returns a `GenericSpeechDataset` for every
path and name. -/
theorem generic_speech_dataset_stub_c6 (d : GenericSpeechDataset)
    (split : String) (gang : Nat) (min_audio_len max_audio_len : Int)
    (batching : Batching) (options : Option SpeechReadOptions)
    (path : String) (name : Option String) :
    d.create_reader split gang min_audio_len max_audio_len batching options =
      Except.error (NotSupportedError.mk "not supported yet.")
    ∧ d.splits = (∅ : Finset String)
    ∧ GenericSpeechDataset.from_path path name = GenericSpeechDataset.mk :=
  ⟨rfl, rfl, rfl⟩

/-- Claim C7: construction of the configuration dataclasses with no
arguments yields the documented defaults (`DataReadOptions()` has
`example_shuffle_window=1`, `batch_shuffle_window=1`, `drop_remainder=False`,
`sync_batches=True`, `sync_mode="until_first"`, `max_num_batches=None`,
`num_accumulate=1`, `num_prefetch=1`, `seed=2`, empty `extras`;
`ModuleSizeInfo()` is all zeroes), and reading any field after construction
returns exactly the value it was constructed with. -/
theorem dataclass_defaults_c7 :
    ({} : DataReadOptions) =
      DataReadOptions.mk 1 1 false true "until_first" none 1 1 2 []
    ∧ ({} : ModuleSizeInfo) = ModuleSizeInfo.mk 0 0 0 0 0 0 0 0
    ∧ (∀ (a b : Int) (c d : Bool) (e : String) (f : Option Int)
        (g i j : Int) (k : List (String × Nat)),
        (DataReadOptions.mk a b c d e f g i j k).example_shuffle_window = a
        ∧ (DataReadOptions.mk a b c d e f g i j k).batch_shuffle_window = b
        ∧ (DataReadOptions.mk a b c d e f g i j k).drop_remainder = c
        ∧ (DataReadOptions.mk a b c d e f g i j k).sync_batches = d
        ∧ (DataReadOptions.mk a b c d e f g i j k).sync_mode = e
        ∧ (DataReadOptions.mk a b c d e f g i j k).max_num_batches = f
        ∧ (DataReadOptions.mk a b c d e f g i j k).num_accumulate = g
        ∧ (DataReadOptions.mk a b c d e f g i j k).num_prefetch = i
        ∧ (DataReadOptions.mk a b c d e f g i j k).seed = j
        ∧ (DataReadOptions.mk a b c d e f g i j k).extras = k)
    ∧ (∀ (a b c d e f g i : Int),
        (ModuleSizeInfo.mk a b c d e f g i).param_size = a
        ∧ (ModuleSizeInfo.mk a b c d e f g i).param_size_bytes = b
        ∧ (ModuleSizeInfo.mk a b c d e f g i).trainable_param_size = c
        ∧ (ModuleSizeInfo.mk a b c d e f g i).trainable_param_size_bytes = d
        ∧ (ModuleSizeInfo.mk a b c d e f g i).buffer_size = e
        ∧ (ModuleSizeInfo.mk a b c d e f g i).buffer_size_bytes = f
        ∧ (ModuleSizeInfo.mk a b c d e f g i).total_size = g
        ∧ (ModuleSizeInfo.mk a b c d e f g i).total_size_bytes = i) := by
  refine ⟨rfl, rfl, ?_, ?_⟩
  · intro a b c d e f g i j k
    exact ⟨rfl, rfl, rfl, rfl, rfl, rfl, rfl, rfl, rfl, rfl⟩
  · intro a b c d e f g i
    exact ⟨rfl, rfl, rfl, rfl, rfl, rfl, rfl, rfl⟩

/-- Claim C10: iterating a `ModuleList` whose `drop_p` is `0.0` (or that is
not in training mode) yields every submodule exactly once, in insertion
order, identical to the underlying module list; dropping can only occur
when `drop_p > 0.0` and the module is in training mode. -/
theorem module_list_iter_c10 (ml : ModuleList) (rand : Nat → Rat) :
    ((ml.drop_p = 0 ∨ ml.training = false) → ml.iter rand = ml.modules)
    ∧ (ml.iter rand ≠ ml.modules → 0 < ml.drop_p ∧ ml.training = true) := by
  constructor
  · intro h
    unfold ModuleList.iter
    rw [if_neg]
    rintro ⟨h1, h2⟩
    rcases h with h | h
    · rw [h] at h1
      exact lt_irrefl 0 h1
    · rw [h] at h2
      cases h2
  · intro hne
    by_cases hc : 0 < ml.drop_p ∧ ml.training = true
    · exact hc
    · exfalso
      apply hne
      unfold ModuleList.iter
      rw [if_neg hc]

/-- Witness for claim C10 at a concrete module list with `drop_p = 0`. -/
theorem module_list_iter_c10_witness :
    ModuleList.iter (ModuleList.mk [10, 20, 30] 0 true) (fun _ => 0) =
      [10, 20, 30] :=
  (module_list_iter_c10 (ModuleList.mk [10, 20, 30] 0 true) (fun _ => 0)).1
    (Or.inl rfl)

/-- Claim C2: after `register_tokenizer_family(container, family,
config_kls, loader=L)`, resolving `TokenizerFamilyHandler` under the key
`family` yields a `StandardTokenizerFamilyHandler` whose `family` property
is that family string, whose `config_kls` property is `config_kls`, and
whose loading delegates to `L`. -/
theorem register_tokenizer_family_c2 (container : DependencyContainer)
    (family : String) (config_kls : PyClass) (L : Loader) (r : Resolver) :
    ∃ h : StandardTokenizerFamilyHandler,
      (register_tokenizer_family container family config_kls (some L)
          none).resolve family r = some (Except.ok h)
      ∧ h.family = family
      ∧ h.config_kls = config_kls
      ∧ ∀ path cfg, h._loader path cfg = L path cfg := by
  refine ⟨StandardTokenizerFamilyHandler.mk family config_kls L r.file_system
    r.asset_download_manager r.asset_config_loader, ?_, rfl, rfl,
    fun _ _ => rfl⟩
  unfold register_tokenizer_family DependencyContainer.register
    DependencyContainer.resolve
  rw [List.find?_cons_of_pos]
  · rfl
  · exact beq_self_eq_true family

/-- If every field value of a dataclass processes successfully with the
given trace, the field loop succeeds with the concatenation of the traces,
in declaration order. -/
theorem processFields_ok_of_forall2 (H : HandlerMap) :
    ∀ (fs : List (String × ConfigVal)) (ts : List (List Event)),
    List.Forall₂ (fun f t => process H f.2 = Except.ok t) fs ts →
      processFields H fs = Except.ok ts.flatten := by
  intro fs
  induction fs with
  | nil =>
    intro ts hts
    cases hts
    rfl
  | cons hd tl ih =>
    intro ts hts
    cases hts with
    | cons h1 h2 =>
      rename_i t ts'
      obtain ⟨name, v⟩ := hd
      replace h1 : process H v = Except.ok t := h1
      simp only [processFields]
      rw [h1, ih ts' h2]
      simp [List.flatten]

/-- Claim C1: `StandardConfigProcessor.process` returns without applying
any handler on a non-dataclass; on a dataclass it first applies the section
handler registered for the exact dataclass type (contributing no event when
none is registered, exactly one application when one is), and then
recursively processes every field value in field-declaration order, the
trace being the handler application followed by the field traces in
order. -/
theorem process_walk_c1 (H : HandlerMap) (n kid : Nat)
    (fs : List (String × ConfigVal)) (ts : List (List Event))
    (ev0 : List Event)
    (hH : applyHandler H kid (ConfigVal.dc kid fs) = Except.ok ev0)
    (hts : List.Forall₂ (fun f t => process H f.2 = Except.ok t) fs ts) :
    process H (ConfigVal.atom n) = Except.ok []
    ∧ process H (ConfigVal.dc kid fs) = Except.ok (ev0 ++ ts.flatten)
    ∧ (H kid = none → ev0 = [])
    ∧ (∀ h, H kid = some h →
        ev0 = [Event.handled kid (ConfigVal.dc kid fs)]) := by
  refine ⟨rfl, ?_, ?_, ?_⟩
  · simp only [process]
    rw [hH, processFields_ok_of_forall2 H fs ts hts]
  · intro hnone
    unfold applyHandler at hH
    rw [hnone] at hH
    cases hH
    rfl
  · intro h hsome
    unfold applyHandler at hH
    rw [hsome] at hH
    simp only at hH
    cases hcall : h (ConfigVal.dc kid fs) with
    | ok u => rw [hcall] at hH; cases hH; rfl
    | error e => rw [hcall] at hH; cases hH

/-- A handler map for the witnesses: a handler that succeeds is registered
for class `0`, one that raises `StructureError` for class `2`, and no
handler for any other class. -/
def hSample : HandlerMap := fun k =>
  if k = 0 then some (fun _ => Except.ok ())
  else if k = 2 then
    some (fun _ => Except.error (PyError.structureError "boom" none))
  else none

/-- Witness for claim C1: a dataclass of class `0` (which has a handler)
with an atom field and a handler-less dataclass field. -/
theorem process_walk_c1_witness :
    process hSample
        (ConfigVal.dc 0 [("a", ConfigVal.atom 1), ("b", ConfigVal.dc 1 [])]) =
      Except.ok
        ([Event.handled 0
            (ConfigVal.dc 0 [("a", ConfigVal.atom 1), ("b", ConfigVal.dc 1 [])])]
          ++ List.flatten [[], []]) :=
  (process_walk_c1 hSample 1 0
      [("a", ConfigVal.atom 1), ("b", ConfigVal.dc 1 [])] [[], []]
      [Event.handled 0
        (ConfigVal.dc 0 [("a", ConfigVal.atom 1), ("b", ConfigVal.dc 1 [])])]
      rfl
      (List.Forall₂.cons rfl (List.Forall₂.cons rfl List.Forall₂.nil))).2.1

/-- Splitting the field loop at an append: the loop over `l1 ++ l2` first
runs the loop over `l1`, and on success continues with `l2`. -/
theorem processFields_append_ok (H : HandlerMap)
    (l1 l2 : List (String × ConfigVal)) (a : List Event)
    (h : processFields H l1 = Except.ok a) :
    processFields H (l1 ++ l2) =
      match processFields H l2 with
      | Except.error e => Except.error e
      | Except.ok b => Except.ok (a ++ b) := by
  induction l1 generalizing a with
  | nil =>
    cases h
    simp only [List.nil_append]
    cases processFields H l2 <;> simp
  | cons hd tl ih =>
    obtain ⟨name, v⟩ := hd
    simp only [processFields] at h
    cases hv : process H v with
    | error e => rw [hv] at h; cases h
    | ok evs =>
      rw [hv] at h
      cases htl : processFields H tl with
      | error e => rw [htl] at h; cases h
      | ok more =>
        rw [htl] at h
        cases h
        simp only [List.cons_append, processFields, List.append_eq, hv,
          ih more htl]
        cases processFields H l2 <;> simp

/-- Claim C5: if recursively processing the value of field `name` of a
dataclass raises a `StructureError` (the section handler and the earlier
fields having succeeded), `process` raises a new `StructureError` whose
message names the field and which is chained from the original error;
errors other than `StructureError` propagate unwrapped. -/
theorem process_field_error_c5 (H : HandlerMap) (kid : Nat)
    (pre : List (String × ConfigVal)) (name : String) (v : ConfigVal)
    (rest : List (String × ConfigVal)) (ev0 evs : List Event) (e : PyError)
    (hH : applyHandler H kid (ConfigVal.dc kid (pre ++ (name, v) :: rest)) =
      Except.ok ev0)
    (hpre : processFields H pre = Except.ok evs)
    (hv : process H v = Except.error e) :
    (∀ m c, e = PyError.structureError m c →
      process H (ConfigVal.dc kid (pre ++ (name, v) :: rest)) =
        Except.error (PyError.structureError
          ("`" ++ name ++
            "` cannot be structured. See the nested exception for details.")
          (some (PyError.structureError m c))))
    ∧ (∀ m, e = PyError.otherError m →
      process H (ConfigVal.dc kid (pre ++ (name, v) :: rest)) =
        Except.error (PyError.otherError m)) := by
  have hfields : processFields H (pre ++ (name, v) :: rest) =
      Except.error (wrapFieldError name e) := by
    rw [processFields_append_ok H pre ((name, v) :: rest) evs hpre]
    simp only [processFields]
    rw [hv]
  have hproc : process H (ConfigVal.dc kid (pre ++ (name, v) :: rest)) =
      Except.error (wrapFieldError name e) := by
    simp only [process]
    rw [hH, hfields]
  constructor
  · intro m c hm
    rw [hproc, hm]
    rfl
  · intro m hm
    rw [hproc, hm]
    rfl

/-- Witness for claim C5: a dataclass with an atom field followed by a
field of class `2`, whose handler raises `StructureError`. -/
theorem process_field_error_c5_witness :
    process hSample
        (ConfigVal.dc 5 [("x", ConfigVal.atom 0), ("bad", ConfigVal.dc 2 [])]) =
      Except.error (PyError.structureError
        "`bad` cannot be structured. See the nested exception for details."
        (some (PyError.structureError "boom" none))) :=
  (process_field_error_c5 hSample 5 [("x", ConfigVal.atom 0)] "bad"
      (ConfigVal.dc 2 []) [] [] [] (PyError.structureError "boom" none)
      rfl rfl rfl).1 "boom" none rfl

/-- The invariant maintained by the accumulation loops of
`get_module_size_info`. -/
def SizeInv (i : ModuleSizeInfo) : Prop :=
  i.total_size = i.param_size + i.buffer_size
  ∧ i.total_size_bytes = i.param_size_bytes + i.buffer_size_bytes
  ∧ i.trainable_param_size ≤ i.param_size
  ∧ i.trainable_param_size_bytes ≤ i.param_size_bytes
  ∧ 0 ≤ i.param_size ∧ 0 ≤ i.param_size_bytes
  ∧ 0 ≤ i.trainable_param_size ∧ 0 ≤ i.trainable_param_size_bytes
  ∧ 0 ≤ i.buffer_size ∧ 0 ≤ i.buffer_size_bytes
  ∧ 0 ≤ i.total_size ∧ 0 ≤ i.total_size_bytes

/-- One parameter step preserves the invariant. -/
theorem add_param_inv (i : ModuleSizeInfo) (p : Option TorchTensor)
    (h : SizeInv i) : SizeInv (add_param i p) := by
  obtain ⟨h1, h2, h3, h4, h5, h6, h7, h8, h9, h10, h11, h12⟩ := h
  cases p with
  | none => exact ⟨h1, h2, h3, h4, h5, h6, h7, h8, h9, h10, h11, h12⟩
  | some t =>
    have hnn : (0 : Int) ≤ (t.numel : Int) * (t.element_size : Int) :=
      mul_nonneg (Int.natCast_nonneg _) (Int.natCast_nonneg _)
    unfold SizeInv add_param get_numel
    cases ht : t.requires_grad <;> simp [ht] <;> omega

/-- One buffer step preserves the invariant. -/
theorem add_buffer_inv (i : ModuleSizeInfo) (b : Option TorchTensor)
    (h : SizeInv i) : SizeInv (add_buffer i b) := by
  obtain ⟨h1, h2, h3, h4, h5, h6, h7, h8, h9, h10, h11, h12⟩ := h
  cases b with
  | none => exact ⟨h1, h2, h3, h4, h5, h6, h7, h8, h9, h10, h11, h12⟩
  | some t =>
    have hnn : (0 : Int) ≤ (t.numel : Int) * (t.element_size : Int) :=
      mul_nonneg (Int.natCast_nonneg _) (Int.natCast_nonneg _)
    unfold SizeInv add_buffer
    simp
    omega

/-- Folding a step that preserves the invariant preserves it. -/
theorem foldl_inv (step : ModuleSizeInfo → Option TorchTensor → ModuleSizeInfo)
    (hstep : ∀ i t, SizeInv i → SizeInv (step i t)) :
    ∀ (l : List (Option TorchTensor)) (i : ModuleSizeInfo),
      SizeInv i → SizeInv (l.foldl step i) := by
  intro l
  induction l with
  | nil => intro i h; exact h
  | cons hd tl ih =>
    intro i h
    exact ih (step i hd) (hstep i hd h)

/-- Claim C9: for every module, the `ModuleSizeInfo` returned by
`get_module_size_info` satisfies `total_size = param_size + buffer_size`,
`total_size_bytes = param_size_bytes + buffer_size_bytes`,
`trainable_param_size <= param_size`,
`trainable_param_size_bytes <= param_size_bytes`, and all eight fields are
non-negative. -/
theorem module_size_info_c9 (m : TorchModule) :
    (get_module_size_info m).total_size =
      (get_module_size_info m).param_size + (get_module_size_info m).buffer_size
    ∧ (get_module_size_info m).total_size_bytes =
      (get_module_size_info m).param_size_bytes +
        (get_module_size_info m).buffer_size_bytes
    ∧ (get_module_size_info m).trainable_param_size ≤
      (get_module_size_info m).param_size
    ∧ (get_module_size_info m).trainable_param_size_bytes ≤
      (get_module_size_info m).param_size_bytes
    ∧ 0 ≤ (get_module_size_info m).param_size
    ∧ 0 ≤ (get_module_size_info m).param_size_bytes
    ∧ 0 ≤ (get_module_size_info m).trainable_param_size
    ∧ 0 ≤ (get_module_size_info m).trainable_param_size_bytes
    ∧ 0 ≤ (get_module_size_info m).buffer_size
    ∧ 0 ≤ (get_module_size_info m).buffer_size_bytes
    ∧ 0 ≤ (get_module_size_info m).total_size
    ∧ 0 ≤ (get_module_size_info m).total_size_bytes := by
  have h0 : SizeInv ({} : ModuleSizeInfo) := by
    refine ⟨rfl, rfl, ?_, ?_, ?_, ?_, ?_, ?_, ?_, ?_, ?_, ?_⟩ <;> simp
  have hp := foldl_inv add_param add_param_inv m.parameters
    ({} : ModuleSizeInfo) h0
  have hb := foldl_inv add_buffer add_buffer_inv m.buffers
    (m.parameters.foldl add_param ({} : ModuleSizeInfo)) hp
  exact hb

/-- Stepping lemma: with a supported URI scheme, `load_tokenizer` resolves
the configuration and hands it to the loader-calling block. -/
theorem load_tokenizer_eq (h : StandardTokenizerFamilyHandler)
    (card : AssetCard) (config : Option Obj) (progress : Bool)
    (hs : card.tokenizer_uri.scheme ∈
      h._asset_download_manager.supported_schemes) :
    h.load_tokenizer card config progress =
      match h.resolve_config card config with
      | Except.error e => Except.error e
      | Except.ok (cfg, hc) =>
        h.call_loader card.name card.tokenizer_uri
          (h._asset_download_manager.download_tokenizer card.tokenizer_uri
            card.name progress) cfg hc := by
  simp only [StandardTokenizerFamilyHandler.load_tokenizer]
  rw [if_pos hs]

/-- With no caller configuration, `resolve_config` reads the configuration
from the card and records that it is not custom. -/
theorem resolve_config_none (h : StandardTokenizerFamilyHandler)
    (card : AssetCard) (cfg : Obj)
    (hcfg : h.get_tokenizer_config card = Except.ok cfg) :
    h.resolve_config card none = Except.ok (cfg, false) := by
  simp only [StandardTokenizerFamilyHandler.resolve_config]
  rw [hcfg]

/-- A caller configuration of the right class is accepted and recorded as
custom. -/
theorem resolve_config_some_ok (h : StandardTokenizerFamilyHandler)
    (card : AssetCard) (cfg : Obj) (hk : cfg.kls = h._config_kls.id) :
    h.resolve_config card (some cfg) = Except.ok (cfg, true) := by
  simp only [StandardTokenizerFamilyHandler.resolve_config]
  rw [if_pos hk]

/-- A caller configuration of the wrong class raises `TypeError`. -/
theorem resolve_config_some_bad (h : StandardTokenizerFamilyHandler)
    (card : AssetCard) (cfg : Obj) (hk : cfg.kls ≠ h._config_kls.id) :
    h.resolve_config card (some cfg) =
      Except.error (TErr.typeError
        "`config` must be of type `config_kls`, but is of another type instead.") := by
  simp only [StandardTokenizerFamilyHandler.resolve_config]
  rw [if_neg hk]

/-- Claim C3: `load_tokenizer` wraps a `ValueError` raised by the loader
into an `AssetCardError` naming the card exactly when the caller passed no
configuration (so it was read from the asset card); a caller-supplied
configuration must be an instance of `config_kls` (otherwise `TypeError` is
raised before the loader is called), and then the `ValueError` propagates
unchanged. -/
theorem load_tokenizer_value_error_c3 (h : StandardTokenizerFamilyHandler)
    (card : AssetCard) (progress : Bool) (cfg : Obj) (m : String)
    (hscheme : card.tokenizer_uri.scheme ∈
      h._asset_download_manager.supported_schemes)
    (hload : h._loader
        (h._asset_download_manager.download_tokenizer card.tokenizer_uri
          card.name progress) cfg = LoaderResult.valueError m) :
    (h.get_tokenizer_config card = Except.ok cfg →
      h.load_tokenizer card none progress =
        Except.error (TErr.assetCardError card.name
          ("tokenizer_config field of the " ++ card.name ++
            " asset card is not a valid " ++ h._family ++
            " tokenizer configuration.")))
    ∧ (cfg.kls = h._config_kls.id →
      h.load_tokenizer card (some cfg) progress =
        Except.error (TErr.valueError m))
    ∧ (∀ cfg2 : Obj, cfg2.kls ≠ h._config_kls.id →
      h.load_tokenizer card (some cfg2) progress =
        Except.error (TErr.typeError
          "`config` must be of type `config_kls`, but is of another type instead.")) := by
  refine ⟨?_, ?_, ?_⟩
  · intro hcfg
    rw [load_tokenizer_eq h card none progress hscheme,
      resolve_config_none h card cfg hcfg]
    simp only [StandardTokenizerFamilyHandler.call_loader]
    rw [hload]
    rfl
  · intro hkls
    rw [load_tokenizer_eq h card (some cfg) progress hscheme,
      resolve_config_some_ok h card cfg hkls]
    simp only [StandardTokenizerFamilyHandler.call_loader]
    rw [hload]
    rfl
  · intro cfg2 hkls
    rw [load_tokenizer_eq h card (some cfg2) progress hscheme,
      resolve_config_some_bad h card cfg2 hkls]

/-- The tokenizer configuration class used in the witnesses. -/
def klsSample : PyClass := PyClass.mk 7 (some (Obj.mk 7 0))

/-- A download manager for the witnesses: supports the `file` and `https`
schemes and resolves every download to the same local path. -/
def admSample : AssetDownloadManager :=
  AssetDownloadManager.mk ["file", "https"] (fun _ _ _ => "/cache/tok.model")

/-- An asset config loader for the witnesses: keeps the default
configuration unchanged. -/
def aclSample : AssetConfigLoader := AssetConfigLoader.mk (fun _ d => d)

/-- A handler for the witnesses whose loader raises `ValueError`. -/
def hdlValueError : StandardTokenizerFamilyHandler :=
  StandardTokenizerFamilyHandler.mk "spm" klsSample
    (fun _ _ => LoaderResult.valueError "bad proto") 0 admSample aclSample

/-- The asset card used in the witnesses, with a `file` tokenizer URI. -/
def cardSample : AssetCard := AssetCard.mk "tok_card" (Uri.mk "file" "/x/y")

/-- Witness for claim C3: with no caller configuration, the `ValueError`
of the loader surfaces as an `AssetCardError` naming the card. -/
theorem load_tokenizer_value_error_c3_witness :
    StandardTokenizerFamilyHandler.load_tokenizer hdlValueError cardSample
        none true =
      Except.error (TErr.assetCardError "tok_card"
        ("tokenizer_config field of the " ++ "tok_card" ++
          " asset card is not a valid " ++ "spm" ++
          " tokenizer configuration.")) :=
  (load_tokenizer_value_error_c3 hdlValueError cardSample true (Obj.mk 7 0)
      "bad proto" (by decide) rfl).1 rfl

/-- Claim C4: during `load_tokenizer`, a `TokenizerModelError` from the
loader is always translated into an `AssetCardError` naming the card; a
`FileNotFoundError` is translated into an `AssetCardError` exactly when the
tokenizer URI scheme is `file`, and re-raised as an operational system
error for any other scheme, as is every other `OSError`; and when the URI
scheme is not among the download manager's supported schemes, an
`AssetCardError` is raised regardless of the loader and of the resolved
configuration. -/
theorem load_tokenizer_errors_c4 (h : StandardTokenizerFamilyHandler)
    (card : AssetCard) (config : Option Obj) (progress : Bool) (cfg : Obj)
    (hc : Bool) (p m : String) :
    (card.tokenizer_uri.scheme ∉
        h._asset_download_manager.supported_schemes →
      h.load_tokenizer card config progress =
        Except.error (TErr.assetCardError card.name
          ("tokenizer URI scheme of the " ++ card.name ++
            " asset card is expected to be a supported scheme, but is " ++
            card.tokenizer_uri.scheme ++ " instead.")))
    ∧ (card.tokenizer_uri.scheme ∈
          h._asset_download_manager.supported_schemes →
       h.resolve_config card config = Except.ok (cfg, hc) →
       h._loader
           (h._asset_download_manager.download_tokenizer card.tokenizer_uri
             card.name progress) cfg = LoaderResult.tokenizerModelError p m →
       h.load_tokenizer card config progress =
         Except.error (TErr.assetCardError card.name
           ("Tokenizer model of the " ++ card.name ++
             " asset card cannot be loaded.")))
    ∧ (card.tokenizer_uri.scheme ∈
          h._asset_download_manager.supported_schemes →
       h.resolve_config card config = Except.ok (cfg, hc) →
       h._loader
           (h._asset_download_manager.download_tokenizer card.tokenizer_uri
             card.name progress) cfg = LoaderResult.fileNotFoundError m →
       (card.tokenizer_uri.scheme = "file" →
         h.load_tokenizer card config progress =
           Except.error (TErr.assetCardError card.name
             (h._asset_download_manager.download_tokenizer card.tokenizer_uri
                 card.name progress ++
               " pointed to by the tokenizer field of the " ++ card.name ++
               " asset card is not found.")))
       ∧ (card.tokenizer_uri.scheme ≠ "file" →
         h.load_tokenizer card config progress =
           Except.error (TErr.operationalSystemError m)))
    ∧ (card.tokenizer_uri.scheme ∈
          h._asset_download_manager.supported_schemes →
       h.resolve_config card config = Except.ok (cfg, hc) →
       h._loader
           (h._asset_download_manager.download_tokenizer card.tokenizer_uri
             card.name progress) cfg = LoaderResult.osError m →
       h.load_tokenizer card config progress =
         Except.error (TErr.operationalSystemError m)) := by
  refine ⟨?_, ?_, ?_, ?_⟩
  · intro hbad
    simp only [StandardTokenizerFamilyHandler.load_tokenizer]
    rw [if_neg hbad]
  · intro hscheme hres hload
    rw [load_tokenizer_eq h card config progress hscheme, hres]
    simp only [StandardTokenizerFamilyHandler.call_loader]
    rw [hload]
  · intro hscheme hres hload
    constructor
    · intro hfile
      rw [load_tokenizer_eq h card config progress hscheme, hres]
      simp only [StandardTokenizerFamilyHandler.call_loader]
      rw [hload]
      simp [hfile]
    · intro hnotfile
      rw [load_tokenizer_eq h card config progress hscheme, hres]
      simp only [StandardTokenizerFamilyHandler.call_loader]
      rw [hload]
      simp [hnotfile]
  · intro hscheme hres hload
    rw [load_tokenizer_eq h card config progress hscheme, hres]
    simp only [StandardTokenizerFamilyHandler.call_loader]
    rw [hload]

/-- A handler for the witnesses whose loader raises `TokenizerModelError`. -/
def hdlModelError : StandardTokenizerFamilyHandler :=
  StandardTokenizerFamilyHandler.mk "spm" klsSample
    (fun _ _ => LoaderResult.tokenizerModelError "/cache/tok.model" "corrupt")
    0 admSample aclSample

/-- An asset card whose tokenizer URI scheme is unsupported. -/
def cardBadScheme : AssetCard :=
  AssetCard.mk "tok_card" (Uri.mk "ftp" "/x/y")

/-- Witness for claim C4: the unsupported-scheme rejection and the
`TokenizerModelError` translation, each at a concrete input. -/
theorem load_tokenizer_errors_c4_witness :
    StandardTokenizerFamilyHandler.load_tokenizer hdlModelError cardBadScheme
        none true =
      Except.error (TErr.assetCardError "tok_card"
        ("tokenizer URI scheme of the " ++ "tok_card" ++
          " asset card is expected to be a supported scheme, but is " ++
          "ftp" ++ " instead."))
    ∧ StandardTokenizerFamilyHandler.load_tokenizer hdlModelError cardSample
        none true =
      Except.error (TErr.assetCardError "tok_card"
        ("Tokenizer model of the " ++ "tok_card" ++
          " asset card cannot be loaded.")) :=
  ⟨(load_tokenizer_errors_c4 hdlModelError cardBadScheme none true
      (Obj.mk 7 0) false "/cache/tok.model" "corrupt").1 (by decide),
   (load_tokenizer_errors_c4 hdlModelError cardSample none true
      (Obj.mk 7 0) false "/cache/tok.model" "corrupt").2.1 (by decide) rfl rfl⟩

mutual

/-- The depth-bounded walk agrees with the walk whenever the bound covers
the nesting depth of the configuration. -/
theorem processFuel_complete (H : HandlerMap) (c : ConfigVal) :
    ∀ fuel : Nat, depth c ≤ fuel → processFuel H fuel c = some (process H c) := by
  intro fuel hfuel
  cases c with
  | atom n =>
    cases fuel with
    | zero => simp [depth] at hfuel
    | succ f => rfl
  | dc kid fs =>
    cases fuel with
    | zero => simp [depth] at hfuel
    | succ f =>
      have hfs : fieldsDepth fs ≤ f := by
        simp only [depth] at hfuel
        omega
      have hrec := processFieldsFuel_complete H fs f hfs
      simp only [processFuel, process, hrec]
      cases applyHandler H kid (ConfigVal.dc kid fs) with
      | error e => rfl
      | ok ev0 =>
        cases processFields H fs with
        | error e => rfl
        | ok evs => rfl

/-- The depth-bounded field loop agrees with the field loop whenever the
bound covers the depth of every field value. -/
theorem processFieldsFuel_complete (H : HandlerMap)
    (fs : List (String × ConfigVal)) :
    ∀ fuel : Nat, fieldsDepth fs ≤ fuel →
      processFieldsFuel H fuel fs = some (processFields H fs) := by
  intro fuel hfuel
  cases fs with
  | nil => rfl
  | cons hd tl =>
    obtain ⟨name, v⟩ := hd
    have hv : depth v ≤ fuel := by
      simp only [fieldsDepth] at hfuel
      omega
    have htl : fieldsDepth tl ≤ fuel := by
      simp only [fieldsDepth] at hfuel
      omega
    have hrecv := processFuel_complete H v fuel hv
    have hrect := processFieldsFuel_complete H tl fuel htl
    simp only [processFieldsFuel, processFields, hrecv, hrect]
    cases process H v with
    | error e => rfl
    | ok evs =>
      cases processFields H tl with
      | error e => rfl
      | ok more => rfl

end

/-- Claim C8: `StandardConfigProcessor.process` terminates on every finite,
non-cyclic configuration: any recursion-depth budget covering the nesting
depth of the configuration suffices for the depth-bounded walk to return
the walk's result. -/
theorem process_terminates_c8 (H : HandlerMap) (c : ConfigVal) (fuel : Nat)
    (hfuel : depth c ≤ fuel) : processFuel H fuel c = some (process H c) :=
  processFuel_complete H c fuel hfuel

/-- Witness for claim C8 at a nested concrete configuration and the budget
equal to its depth. -/
theorem process_terminates_c8_witness :
    depth (ConfigVal.dc 0 [("a", ConfigVal.dc 1 [("b", ConfigVal.atom 3)])]) ≤ 3
    ∧ processFuel hSample 3
        (ConfigVal.dc 0 [("a", ConfigVal.dc 1 [("b", ConfigVal.atom 3)])]) =
      some (process hSample
        (ConfigVal.dc 0 [("a", ConfigVal.dc 1 [("b", ConfigVal.atom 3)])])) :=
  ⟨by simp [depth, fieldsDepth],
   process_terminates_c8 hSample
     (ConfigVal.dc 0 [("a", ConfigVal.dc 1 [("b", ConfigVal.atom 3)])]) 3
     (by simp [depth, fieldsDepth])⟩

end Fairseq2
